import Mathlib

/-!
# Verification of the geometry & placement engine of sketch-auto-spec

Shallow embedding of the selection-geometry module (`src/Crawler.js`), the
spacing quantizer and annotation placement (`src/Identifier.js`), and the
Painter registry operations, over exact rational arithmetic (JS numbers on
the inputs involved stay exact).

An element of a selection is modelled by its canvas-absolute position
(the result of `getPositionOnArtboard`), its frame dimensions, and its
synthesized relative z-index (the result of `getRelativeIndex`).
-/

/-- Gap/overlap orientation tag (`'vertical'` / `'horizontal'` in the source). -/
inductive Orient where
  | vertical
  | horizontal
deriving DecidableEq, Repr

/-- A selected element: `id`, canvas-absolute `x`/`y` (as computed by
`getPositionOnArtboard`), `width`/`height` (from `layer.frame()`), and the
synthesized relative z-index `rIndex` (from `getRelativeIndex`). -/
structure Layer where
  id : Nat
  x : ℚ
  y : ℚ
  width : ℚ
  height : ℚ
  rIndex : ℚ
deriving DecidableEq, Repr

/-- JS falsiness of a nullable number: `null` and `0` are falsy.
Mirrors checks such as `if (!theFrame.x)`. -/
def jsFalsyNum : Option ℚ → Bool
  | none => true
  | some v => v == 0

/-- JS falsiness of a nullable integer (for quantized spacing values). -/
def jsFalsyInt : Option Int → Bool
  | none => true
  | some v => v == 0

/-- JS falsiness of a nullable string: `null`/`undefined` and `''` are falsy. -/
def jsFalsyStr : Option String → Bool
  | none => true
  | some s => s == ""

/-- JS `Math.round`: rounds half toward positive infinity. -/
def jsRound (x : ℚ) : Int := Rat.floor (x + 1 / 2)

/-! ## Crawler.frame (src/Crawler.js lines 91-150)

The loop state carries the nullable upper-left `x`/`y` and the running
`outerX`/`outerY` values (both initialized to `0`). -/

/-- The upper-left update of `Crawler.frame`:
`if ((!theFrame.x) || (theFrame.x > layerX)) theFrame.x = layerX`.
Note that a tracked value of `0` is falsy and is unconditionally overwritten. -/
def frameMinUpdate (cur : Option ℚ) (v : ℚ) : Option ℚ :=
  match cur with
  | none => some v
  | some c => if c = 0 ∨ c > v then some v else some c

/-- The outer-edge update of `Crawler.frame`:
`if (layerOuterX > outerX) outerX = layerOuterX` (initialized to `0`). -/
def frameOuterUpdate (cur : ℚ) (v : ℚ) : ℚ :=
  if v > cur then v else cur

/-- Loop state for `Crawler.frame`. -/
structure FrameState where
  x : Option ℚ
  y : Option ℚ
  outerX : ℚ
  outerY : ℚ
deriving DecidableEq, Repr

/-- One iteration of the `Crawler.frame` loop (lines 105-139). -/
def frameStep (st : FrameState) (l : Layer) : FrameState :=
  { x := frameMinUpdate st.x l.x
    y := frameMinUpdate st.y l.y
    outerX := frameOuterUpdate st.outerX (l.x + l.width)
    outerY := frameOuterUpdate st.outerY (l.y + l.height) }

/-- The selection frame returned by `Crawler.frame` (`x`/`y` stay `null`
on an empty selection; JS then coerces `null` to `0` in the subtraction). -/
structure SelectionFrame where
  x : Option ℚ
  y : Option ℚ
  width : ℚ
  height : ℚ
deriving DecidableEq, Repr

/-- `Crawler.frame` (lines 91-150): folds the loop over the flattened
selection, then sets `width = outerX - theFrame.x` and
`height = outerY - theFrame.y`. -/
def crawlerFrame (sel : List Layer) : SelectionFrame :=
  let st := sel.foldl frameStep ⟨none, none, 0, 0⟩
  { x := st.x
    y := st.y
    width := st.outerX - st.x.getD 0
    height := st.outerY - st.y.getD 0 }

/-! ## Crawler.gapFrame (src/Crawler.js lines 165-358) -/

/-- The gap frame: canvas-absolute coordinates, dimensions, orientation and
the ids of the two layers used to compute it. -/
structure GapFrame where
  x : ℚ
  y : ℚ
  width : ℚ
  height : ℚ
  orientation : Orient
  layerAId : Nat
  layerBId : Nat
deriving DecidableEq, Repr

/-- Left-most layer selection loop (lines 188-196, first comparison),
starting from `selection[0]`. -/
def minXLayer (start : Layer) (sel : List Layer) : Layer :=
  sel.foldl (fun acc l => if l.x < acc.x then l else acc) start

/-- Right-most layer selection loop (lines 188-196, second comparison). -/
def maxXLayer (start : Layer) (sel : List Layer) : Layer :=
  sel.foldl (fun acc l => if l.x > acc.x then l else acc) start

/-- Top-most layer selection loop (lines 272-280), starting from the
left-most layer found earlier. -/
def minYLayer (start : Layer) (sel : List Layer) : Layer :=
  sel.foldl (fun acc l => if l.y < acc.y then l else acc) start

/-- Bottom-most layer selection loop (lines 272-280). -/
def maxYLayer (start : Layer) (sel : List Layer) : Layer :=
  sel.foldl (fun acc l => if l.y > acc.y then l else acc) start

/-- Six-way vertical-band disambiguation of `Crawler.gapFrame`
(lines 216-251); returns `(topEdgeY, bottomEdgeY)`. -/
def gapBandY (layerA layerB : Layer) : ℚ × ℚ :=
  let layerATopY := layerA.y
  let layerABottomY := layerA.y + layerA.height
  let layerBTopY := layerB.y
  let layerBBottomY := layerB.y + layerB.height
  if layerBTopY ≥ layerATopY then
    if layerABottomY ≥ layerBTopY then
      if layerBBottomY ≥ layerABottomY then (layerBTopY, layerABottomY)
      else (layerBTopY, layerBBottomY)
    else (layerABottomY, layerBTopY)
  else if layerBBottomY ≥ layerATopY then
    if layerABottomY ≥ layerBBottomY then (layerATopY, layerBBottomY)
    else (layerATopY, layerABottomY)
  else (layerBBottomY, layerATopY)

/-- Six-way horizontal-band disambiguation of `Crawler.gapFrame`
(lines 300-335); returns `(leftEdgeX, rightEdgeX)`. -/
def gapBandX (layerA layerB : Layer) : ℚ × ℚ :=
  let layerALeftX := layerA.x
  let layerARightX := layerA.x + layerA.width
  let layerBLeftX := layerB.x
  let layerBRightX := layerB.x + layerB.width
  if layerBLeftX ≥ layerALeftX then
    if layerARightX ≥ layerBLeftX then
      if layerBRightX ≥ layerARightX then (layerBLeftX, layerARightX)
      else (layerBLeftX, layerBRightX)
    else (layerARightX, layerBLeftX)
  else if layerBRightX ≥ layerALeftX then
    if layerARightX ≥ layerBRightX then (layerALeftX, layerBRightX)
    else (layerALeftX, layerARightX)
  else (layerBRightX, layerALeftX)

/-- `Crawler.gapFrame` (lines 165-358). On an empty selection the JS code
faults dereferencing `selection[0]`; the embedding returns `none` there
(no claim concerns the empty selection). The final `if (!theFrame.x)
return null` check makes a frame whose `x` lands exactly on `0` falsy,
so such a frame is dropped. -/
def gapFrame (sel : List Layer) : Option GapFrame :=
  match sel with
  | [] => none
  | first :: _ =>
    let layerA := minXLayer first sel
    let layerB := maxXLayer first sel
    if layerA.x + layerA.width < layerB.x then
      -- vertical-orientation gap between left-most and right-most layers
      let leftEdgeX := layerA.x + layerA.width
      let rightEdgeX := layerB.x
      let band := gapBandY layerA layerB
      let frameHeight := band.2 - band.1
      if leftEdgeX = 0 then none
      else
        some { x := leftEdgeX
               y := band.1 + frameHeight / 2
               width := rightEdgeX - leftEdgeX
               height := frameHeight
               orientation := Orient.vertical
               layerAId := layerA.id
               layerBId := layerB.id }
    else
      -- the gap is horizontal (if overlap does not exist)
      let layerA2 := minYLayer layerA sel
      let layerB2 := maxYLayer layerB sel
      if layerA2.y + layerA2.height < layerB2.y then
        let topEdgeY := layerA2.y + layerA2.height
        let bottomEdgeY := layerB2.y
        let band := gapBandX layerA2 layerB2
        let frameWidth := band.2 - band.1
        let finalX := band.1 + frameWidth / 2
        if finalX = 0 then none
        else
          some { x := finalX
                 y := topEdgeY
                 width := frameWidth
                 height := bottomEdgeY - topEdgeY
                 orientation := Orient.horizontal
                 layerAId := layerA2.id
                 layerBId := layerB2.id }
      else none

/-! ## Crawler.overlapFrames (src/Crawler.js lines 374-479) -/

/-- One of the four quadrant frames produced by `Crawler.overlapFrames`. -/
structure OFrame where
  x : ℚ
  y : ℚ
  width : ℚ
  height : ℚ
  orientation : Orient
deriving DecidableEq, Repr

/-- The result of `Crawler.overlapFrames`: the four quadrant frames plus the
ids of the back (`layerAId`) and front (`layerBId`) layers. -/
structure OverlapFrames where
  top : OFrame
  bottom : OFrame
  right : OFrame
  left : OFrame
  layerAId : Nat
  layerBId : Nat
deriving DecidableEq, Repr

/-- Loop state of the z-order scan in `Crawler.overlapFrames`. -/
structure ZState where
  layerA : Layer
  layerAIndex : ℚ
  layerB : Layer
  layerBIndex : ℚ
deriving DecidableEq, Repr

/-- One iteration of the z-order scan (lines 399-411): the front-layer
update is checked first, then the back-layer update. -/
def zStep (st : ZState) (l : Layer) : ZState :=
  let layerIndex := l.rIndex
  let st1 :=
    if layerIndex > st.layerBIndex then
      { st with layerB := l, layerBIndex := layerIndex }
    else st
  if layerIndex < st1.layerAIndex then
    { st1 with layerA := l, layerAIndex := layerIndex }
  else st1

/-- `Crawler.overlapFrames` (lines 374-479): first uses `gapFrame` to ensure
the layers actually overlap, then resolves the back (`layerA`) and front
(`layerB`) layers via relative z-indices (ties give `null`), and finally
derives the four quadrant rectangles algebraically. -/
def overlapFrames (sel : List Layer) : Option OverlapFrames :=
  if (gapFrame sel).isSome then none
  else
    match sel with
    | [] => none
    | first :: rest =>
      let layerA0 := first
      let layerB0 := rest.getLast?.getD first
      let st := sel.foldl zStep ⟨layerA0, layerA0.rIndex, layerB0, layerB0.rIndex⟩
      if st.layerAIndex = st.layerBIndex then none
      else
        let layerA := st.layerA
        let layerB := st.layerB
        let topWidth := layerB.width
        let topHeight := layerB.y - layerA.y
        let topX := layerB.x
        let topY := layerA.y
        let bottomWidth := layerB.width
        let bottomHeight := layerA.height - topHeight - layerB.height
        let bottomX := layerB.x
        let bottomY := layerA.y + topHeight + layerB.height
        let leftWidth := layerB.x - layerA.x
        let leftHeight := layerB.height
        let leftX := layerA.x
        let leftY := layerB.y
        let rightWidth := layerA.width - layerB.width - leftWidth
        let rightHeight := layerB.height
        let rightX := layerB.x + layerB.width
        let rightY := layerB.y
        some { top := ⟨topX, topY, topWidth, topHeight, Orient.horizontal⟩
               bottom := ⟨bottomX, bottomY, bottomWidth, bottomHeight, Orient.horizontal⟩
               right := ⟨rightX, rightY, rightWidth, rightHeight, Orient.vertical⟩
               left := ⟨leftX, leftY, leftWidth, leftHeight, Orient.vertical⟩
               layerAId := layerA.id
               layerBId := layerB.id }

/-- All four quadrant frames have non-negative width and height. -/
def quadrantsNonneg (o : OverlapFrames) : Prop :=
  0 ≤ o.top.width ∧ 0 ≤ o.top.height ∧ 0 ≤ o.bottom.width ∧
  0 ≤ o.bottom.height ∧ 0 ≤ o.left.width ∧ 0 ≤ o.left.height ∧
  0 ≤ o.right.width ∧ 0 ≤ o.right.height

/-! ## The spacing quantizer (src/Identifier.js lines 852-884) -/

/-- `retrieveSpacingValue` (lines 852-884): the `switch (true)` breakpoint
cascade; below the last breakpoint it falls back to `Math.round(length / 4)`. -/
def retrieveSpacingValue (length : ℚ) : Option Int :=
  if length ≥ 128 then none
  else if length ≥ 80 then some 9
  else if length ≥ 56 then some 8
  else if length ≥ 40 then some 7
  else if length ≥ 28 then some 6
  else if length ≥ 20 then some 5
  else if length ≥ 16 then some 4
  else some (jsRound (length / 4))

/-- The quantizer table exactly as the specification words it: two-sided
bands `80 ≤ length < 128 → 9` down to `16 ≤ length < 20 → 4`, `None` at and
above `128`, and `round(length/4)` below `16`. Used to compare the source
cascade against the specified table. -/
def quantizeSpacingSpecTable (length : ℚ) : Option Int :=
  if 128 ≤ length then none
  else if 80 ≤ length ∧ length < 128 then some 9
  else if 56 ≤ length ∧ length < 80 then some 8
  else if 40 ≤ length ∧ length < 56 then some 7
  else if 28 ≤ length ∧ length < 40 then some 6
  else if 20 ≤ length ∧ length < 28 then some 5
  else if 16 ≤ length ∧ length < 20 then some 4
  else some (jsRound (length / 4))

/-! ## Annotation placement (src/Identifier.js, positionAnnotation, lines 518-768)

The placement computation is modelled through the group-frame mutations of
lines 518-762: the group's final canvas-absolute origin and its size.
`group.adjustToFit()` (line 764) is a host tight-fit call outside the model.
The annotation elements are abstracted to the data placement reads: the
rectangle's measured width/height and whether a measure icon was built. -/

/-- The orientation argument of the placement function
(`'top'`, `'left'` or `'right'`). -/
inductive PlaceOrient where
  | top
  | left
  | right
deriving DecidableEq, Repr

/-- The annotation-type argument (`'component'`, `'custom'`, `'style'`,
`'dimension'`, `'spacing'`). -/
inductive AnnotType where
  | component
  | custom
  | style
  | dimension
  | spacing
deriving DecidableEq, Repr

/-- `annotationType === 'spacing' || annotationType === 'dimension'`
(lines 539-545 and lines 335-341). -/
def isMeasurementType : AnnotType → Bool
  | AnnotType.spacing => true
  | AnnotType.dimension => true
  | _ => false

/-- Whether `buildAnnotation` (lines 296-458) builds a measure icon:
`icon` stays `null` unless the type is a measurement type (lines 443-449). -/
def builtIconPresent (t : AnnotType) : Bool := isMeasurementType t

/-- The data of the built annotation elements that placement reads:
the card rectangle's frame size and icon presence. -/
structure AnnotElems where
  rectWidth : ℚ
  rectHeight : ℚ
  hasIcon : Bool
deriving DecidableEq, Repr

/-- The `layerFrame` argument of the placement function: the target frame
plus the artboard dimensions. -/
structure LayerFrameArg where
  artboardWidth : ℚ
  artboardHeight : ℚ
  width : ℚ
  height : ℚ
  x : ℚ
  y : ℚ
deriving DecidableEq, Repr

/-- The final placement of the annotation group, in canvas-absolute
coordinates (the code stores `placementX - relativeGroupFrame.x` relative
to the container group; adding back the container origin gives the
canvas-absolute origin modelled here). -/
structure PlacedGroup where
  x : ℚ
  y : ℚ
  width : ℚ
  height : ℚ
deriving DecidableEq, Repr

/-- Initial `placementX` of `positionAnnotation` (lines 571-575 and the
orientation switch, lines 589-601; the default case is `top`). -/
def placeStartX (isMeasurement : Bool) (layerFrame : LayerFrameArg)
    (groupWidth : ℚ) (orientation : PlaceOrient) : ℚ :=
  if orientation = PlaceOrient.left then
    layerFrame.x - (if isMeasurement then 40 else 38)
  else if orientation = PlaceOrient.right then
    layerFrame.x + layerFrame.width + (if isMeasurement then 12 else 5)
  else
    layerFrame.x + (layerFrame.width - groupWidth) / 2

/-- Initial `placementY` of `positionAnnotation` (lines 577-581 and the
orientation switch, lines 589-601): vertically centered for `left`/`right`,
offset above the layer for `top`. -/
def placeStartY (isMeasurement : Bool) (layerFrame : LayerFrameArg)
    (groupHeight : ℚ) (orientation : PlaceOrient) : ℚ :=
  if orientation = PlaceOrient.left ∨ orientation = PlaceOrient.right then
    layerFrame.y + (layerFrame.height - groupHeight) / 2
  else
    layerFrame.y - (if isMeasurement then 33 else 38)

/-- The left- and right-bleed corrections of `positionAnnotation`
(lines 604-624), applied in source order to the initial `placementX`. -/
def bleedCorrectX (hasIcon : Bool) (artboardWidth groupWidth px : ℚ) : ℚ :=
  let px1 := if px < 0 then (5 : ℚ) else px
  if px1 + groupWidth > artboardWidth then
    if hasIcon then artboardWidth - groupWidth - 3 - 3
    else artboardWidth - groupWidth - 3
  else px1

/-- The top- and bottom-bleed corrections of `positionAnnotation`
(lines 627-647), applied in source order to the initial `placementY`. -/
def bleedCorrectY (hasIcon : Bool) (artboardHeight groupHeight py : ℚ) : ℚ :=
  let py1 := if py < 0 then (if hasIcon then (2 : ℚ) else 5) else py
  if py1 > artboardHeight - groupHeight then
    artboardHeight - groupHeight - (if hasIcon then 2 else 5)
  else py1

/-- `positionAnnotation` (lines 518-768), modelled on the group frame.
Steps, in source order: group sizing (lines 554-555), initial placement
(lines 571-601), left/right/top/bottom bleed corrections (lines 603-647),
the 2-unit group nudge for left/right orientations (line 691), and the
icon rebuild for non-top orientations (lines 730-762) which dereferences
`icon` unconditionally — when no icon was built (`icon === null`) the call
faults, modelled as `none`. -/
def positionAnnotPlacement (annot : AnnotElems) (layerFrame : LayerFrameArg)
    (annotType : AnnotType) (orientation : PlaceOrient) : Option PlacedGroup :=
  let isMeasurement := isMeasurementType annotType
  let groupWidth := annot.rectWidth
  let groupHeight := annot.rectHeight + 4
  let placementX := bleedCorrectX annot.hasIcon layerFrame.artboardWidth
    groupWidth (placeStartX isMeasurement layerFrame groupWidth orientation)
  let placementY := bleedCorrectY annot.hasIcon layerFrame.artboardHeight
    groupHeight (placeStartY isMeasurement layerFrame groupHeight orientation)
  if orientation = PlaceOrient.top then
    some ⟨placementX, placementY, groupWidth, groupHeight⟩
  else
    -- left/right orientations: the group is nudged down 2 units (line 691);
    -- then `icon.remove()` (line 733) faults if no icon was built
    if annot.hasIcon then
      some ⟨placementX, placementY + 2, groupWidth, groupHeight⟩
    else none

/-! ## Painter registry operations (src/Identifier.js, Painter class)

The persisted document settings and the set of live visual groups are
modelled explicitly. `Settings.documentSettingForKey` reads the state at
the start of an operation and `Settings.setDocumentSettingForKey` commits
it at the end; the embedding threads the state through directly. The ids
of visual groups built by `positionAnnotation` are host-generated and are
passed to each operation as parameters. -/

/-- A record of `annotatedLayers` / `annotatedDimensions`:
`{containerGroupId, id, originalId}`. -/
structure AnnotRecord where
  containerGroupId : Nat
  id : Nat
  originalId : Nat
deriving DecidableEq, Repr

/-- The four spacing directions (`'gap'`, `'top'`, `'bottom'`, `'right'`,
`'left'` strings in the persisted records). -/
inductive SpacingDir where
  | gap
  | top
  | bottom
  | right
  | left
deriving DecidableEq, Repr

/-- A record of `annotatedSpacings`:
`{containerGroupId, id, layerAId, layerBId, direction}`. -/
structure SpacingRecord where
  containerGroupId : Nat
  id : Nat
  layerAId : Nat
  layerBId : Nat
  direction : SpacingDir
deriving DecidableEq, Repr

/-- The observable state: the persisted settings ledgers plus the ids of
the live annotation visual groups in the document. -/
structure DocState where
  annotatedLayers : List AnnotRecord
  annotatedDimensions : List AnnotRecord
  annotatedSpacings : List SpacingRecord
  live : List Nat
deriving DecidableEq, Repr

/-- `updateArray(key, {id}, array, 'remove')` (src/Tools.js lines 102-113):
`findIndex` of the record with the given id, then
`[...slice(0, itemIndex), ...slice(itemIndex + 1)]`. When `findIndex`
returns `-1` the slices evaluate to `slice(0, -1)` (all but the last
element) and `slice(0)` (the whole array). -/
def updateArrayRemove (idOf : α → Nat) (arr : List α) (i : Nat) : List α :=
  match arr.findIdx? (fun r => idOf r == i) with
  | some idx => arr.take idx ++ arr.drop (idx + 1)
  | none => arr.dropLast ++ arr

/-- `Painter.removeAnnotation` (lines 1203-1208): looks the visual group up
by id and removes it from the document when found. -/
def removeAnnotOp (s : DocState) (groupId : Nat) : DocState :=
  { s with live := s.live.filter (fun g => g ≠ groupId) }

/-- The result object of the Painter operations (`status` plus the log
message; alert/toast messages are not distinguished by any claim). -/
structure PainterResult where
  status : String
  log : String
deriving DecidableEq, Repr

/-- The upsert removal loop shared by `Painter.addAnnotation`
(lines 1265-1280), `Painter.addDimMeasurement` (lines 1423-1438) and
`Painter.addSpacingAnnotation` (lines 1580-1599): iterate over the
snapshot of the ledger read at operation start; for every record matching
the key, delete its visual group (`removeAnnotation`) and remove the
record (`updateArray remove`). The first component of the state pair is
the evolving ledger, the second the evolving set of live group ids. -/
def upsertRemoveLoop (p : α → Bool) (idOf : α → Nat)
    (todo : List α) (st : List α × List Nat) : List α × List Nat :=
  todo.foldl
    (fun acc r =>
      if p r then
        (updateArrayRemove idOf acc.1 (idOf r),
         acc.2.filter (fun g => g ≠ idOf r))
      else acc)
    st

/-- The layer settings read by `Painter.addAnnotation`
(`Settings.layerSettingForKey`). -/
structure LayerSettingsData where
  annotationText : Option String
  annotationSecondaryText : Option String
  annotationType : AnnotType
deriving DecidableEq, Repr

/-- `Painter.addAnnotation` (lines 1218-1333). Checks, in source order:
missing layer settings / missing `annotationText` (line 1229) and missing
artboard (line 1236) return an error without touching any state; otherwise
the removal loop runs over the `annotatedLayers` snapshot, the new visual
group is created (`positionAnnotation`, line 1301, id `newGroupId`), the
new record is pushed, and the settings are committed. -/
def addAnnotOp (layerSettings : Option LayerSettingsData) (hasArtboard : Bool)
    (layerId : Nat) (containerGroupId : Nat) (newGroupId : Nat)
    (s : DocState) : PainterResult × DocState :=
  match layerSettings with
  | none => (⟨"error", "Layer missing annotationText"⟩, s)
  | some ls =>
    if jsFalsyStr ls.annotationText then
      (⟨"error", "Layer missing annotationText"⟩, s)
    else if !hasArtboard then
      (⟨"error", "Selection not on artboard"⟩, s)
    else
      let loop := upsertRemoveLoop (fun r => r.originalId == layerId)
        (fun r => r.id) s.annotatedLayers (s.annotatedLayers, s.live)
      -- the new visual group is built only after the removal loop
      let live1 := loop.2 ++ [newGroupId]
      let newSet : AnnotRecord := ⟨containerGroupId, newGroupId, layerId⟩
      let s1 : DocState :=
        { s with annotatedLayers := loop.1 ++ [newSet], live := live1 }
      (⟨"success", ""⟩, s1)

/-- The `spacingFrame` argument of `Painter.addSpacingAnnotation`. -/
structure SpacingFrame where
  x : ℚ
  y : ℚ
  width : ℚ
  height : ℚ
  orientation : Orient
  layerAId : Nat
  layerBId : Nat
  direction : SpacingDir
deriving DecidableEq, Repr

/-- The measurement chosen by `Painter.addSpacingAnnotation` (line 1554):
the gap width for a vertical gap, its height for a horizontal one. -/
def spacingMeasurement (f : SpacingFrame) : ℚ :=
  if f.orientation = Orient.vertical then f.width else f.height

/-- The annotation text computed by `Painter.addSpacingAnnotation`
(lines 1554-1563): `null` when the quantized spacing value is falsy
(absent, or the concrete value `0`), otherwise the string `IS-` followed
by the value. -/
def spacingAnnotText (f : SpacingFrame) : Option String :=
  let spacingValue := retrieveSpacingValue (spacingMeasurement f)
  if jsFalsyInt spacingValue then none
  else some ("IS-" ++ toString (spacingValue.getD 0))

/-- `Painter.addSpacingAnnotation` (lines 1552-1655). When the quantized
spacing value is falsy the operation returns before touching any state
(lines 1559-1561). Otherwise: removal loop over the `annotatedSpacings`
snapshot keyed by the `(layerAId, layerBId, direction)` triple
(lines 1580-1599), creation of the new visual group (line 1621), push of
the new record, and commit. The second component of the result reports the
id of the visual group the call created, if any. -/
def addSpacingAnnotOp (f : SpacingFrame) (containerGroupId : Nat)
    (newGroupId : Nat) (s : DocState) : DocState × Option Nat :=
  let spacingValue := retrieveSpacingValue (spacingMeasurement f)
  if jsFalsyInt spacingValue then (s, none)
  else
    let loop := upsertRemoveLoop
      (fun r => r.layerAId == f.layerAId && r.layerBId == f.layerBId
        && r.direction == f.direction)
      (fun r => r.id) s.annotatedSpacings (s.annotatedSpacings, s.live)
    let live1 := loop.2 ++ [newGroupId]
    let newSet : SpacingRecord :=
      ⟨containerGroupId, newGroupId, f.layerAId, f.layerBId, f.direction⟩
    let s1 : DocState :=
      { s with annotatedSpacings := loop.1 ++ [newSet], live := live1 }
    (s1, some newGroupId)

/-- `Painter.addDimMeasurement` (lines 1388-1537). The missing-artboard
check (line 1399) returns an error without touching any state; otherwise
the removal loop runs over the `annotatedDimensions` snapshot keyed by the
layer id, then the width annotation group (`gidWidth`) and the height
annotation group (`gidHeight`) are created and recorded in order. -/
def addDimMeasurement (hasArtboard : Bool) (layerId : Nat)
    (containerGroupId : Nat) (gidWidth gidHeight : Nat)
    (s : DocState) : PainterResult × DocState :=
  if !hasArtboard then
    (⟨"error", "Selection not on artboard"⟩, s)
  else
    let loop := upsertRemoveLoop (fun r => r.originalId == layerId)
      (fun r => r.id) s.annotatedDimensions (s.annotatedDimensions, s.live)
    let setWidth : AnnotRecord := ⟨containerGroupId, gidWidth, layerId⟩
    let setHeight : AnnotRecord := ⟨containerGroupId, gidHeight, layerId⟩
    let s1 : DocState :=
      { s with annotatedDimensions := (loop.1 ++ [setWidth]) ++ [setHeight]
               live := (loop.2 ++ [gidWidth]) ++ [gidHeight] }
    (⟨"success", "Dimensions annotated"⟩, s1)

/-- The frame passed on by `Painter.addGapMeasurement` (line 1696):
the crawler gap frame tagged with direction `gap`. -/
def gapToSpacingFrame (g : GapFrame) : SpacingFrame :=
  ⟨g.x, g.y, g.width, g.height, g.orientation, g.layerAId, g.layerBId,
    SpacingDir.gap⟩

/-- `Painter.addGapMeasurement` (lines 1669-1705): errors on a missing
artboard (line 1680) or a missing `spacingFrame` (line 1688) without
touching any state; otherwise tags the frame with direction `gap` and
delegates to `addSpacingAnnotation`. -/
def addGapMeasurement (hasArtboard : Bool) (gap : Option GapFrame)
    (containerGroupId : Nat) (newGroupId : Nat)
    (s : DocState) : PainterResult × DocState :=
  if !hasArtboard then
    (⟨"error", "Selection not on artboard"⟩, s)
  else
    match gap with
    | none => (⟨"error", "spacingFrame is missing"⟩, s)
    | some g =>
      let s1 := (addSpacingAnnotOp (gapToSpacingFrame g)
        containerGroupId newGroupId s).1
      (⟨"success", "Spacing annotated"⟩, s1)

/-- Quadrant selection of `overlapFrames[direction]` for the four
directions used by `Painter.addOverlapMeasurements`. -/
def overlapQuadrant (o : OverlapFrames) : SpacingDir → OFrame
  | SpacingDir.top => o.top
  | SpacingDir.bottom => o.bottom
  | SpacingDir.right => o.right
  | SpacingDir.left => o.left
  | SpacingDir.gap => o.top

/-- `Painter.addOverlapMeasurements` (lines 1723-1786): errors on a missing
artboard (line 1737) or missing `overlapFrames` (line 1745) without
touching any state. Otherwise, per direction: skip when the quadrant's
width or height is `≤ 2` (line 1755); otherwise re-anchor the frame
(lines 1760-1766) and delegate to `addSpacingAnnotation`. The ids of the
visual groups created per direction are supplied by `gid`. -/
def addOverlapMeasurements (hasArtboard : Bool) (o : Option OverlapFrames)
    (directions : List SpacingDir) (containerGroupId : Nat)
    (gid : SpacingDir → Nat) (s : DocState) : PainterResult × DocState :=
  if !hasArtboard then
    (⟨"error", "Selection not on artboard"⟩, s)
  else
    match o with
    | none => (⟨"error", "overlapFrames is missing"⟩, s)
    | some frames =>
      let s1 := directions.foldl
        (fun acc d =>
          let q := overlapQuadrant frames d
          if q.width ≤ 2 ∨ q.height ≤ 2 then acc
          else
            let anchor :=
              if d = SpacingDir.left ∨ d = SpacingDir.right then
                (q.x, q.y + q.height / 2)
              else
                (q.x + q.width / 2, q.y)
            let f : SpacingFrame :=
              ⟨anchor.1, anchor.2, q.width, q.height, q.orientation,
                frames.layerAId, frames.layerBId, d⟩
            (addSpacingAnnotOp f containerGroupId (gid d) acc).1)
        s
      (⟨"success", "Spacing annotated"⟩, s1)

/-- The C3 post-state facts for `Painter.addAnnotation`, for an upsert of
layer `layerId` performed twice (visual groups `g1` then `g2`): exactly one
persisted record for the key, carrying the second call's group id; the
first group deleted, the second live; and, inside the second call, after
the removal phase (before the new visual exists) the key has no record and
the first visual is already gone. `s1` is the state between the calls,
`s2` the final state. -/
def annotUpsertOutcome (layerId cgid g1 g2 : Nat) (s1 s2 : DocState) : Prop :=
  s2.annotatedLayers.filter (fun r => r.originalId == layerId)
      = [⟨cgid, g2, layerId⟩] ∧
  g1 ∉ s2.live ∧ g2 ∈ s2.live ∧
  (upsertRemoveLoop (fun r => r.originalId == layerId) (fun r => r.id)
      s1.annotatedLayers (s1.annotatedLayers, s1.live)).1.filter
      (fun r => r.originalId == layerId) = [] ∧
  g1 ∉ (upsertRemoveLoop (fun r => r.originalId == layerId) (fun r => r.id)
      s1.annotatedLayers (s1.annotatedLayers, s1.live)).2

/-- The C3 post-state facts for `Painter.addSpacingAnnotation`, keyed by
the `(layerAId, layerBId, direction)` triple; same shape as
`annotUpsertOutcome`. -/
def spacingUpsertOutcome (f : SpacingFrame) (cgid g1 g2 : Nat)
    (s1 s2 : DocState) : Prop :=
  s2.annotatedSpacings.filter (fun r => r.layerAId == f.layerAId &&
      r.layerBId == f.layerBId && r.direction == f.direction)
      = [⟨cgid, g2, f.layerAId, f.layerBId, f.direction⟩] ∧
  g1 ∉ s2.live ∧ g2 ∈ s2.live ∧
  (upsertRemoveLoop (fun r => r.layerAId == f.layerAId &&
      r.layerBId == f.layerBId && r.direction == f.direction) (fun r => r.id)
      s1.annotatedSpacings (s1.annotatedSpacings, s1.live)).1.filter
      (fun r => r.layerAId == f.layerAId && r.layerBId == f.layerBId &&
        r.direction == f.direction) = [] ∧
  g1 ∉ (upsertRemoveLoop (fun r => r.layerAId == f.layerAId &&
      r.layerBId == f.layerBId && r.direction == f.direction) (fun r => r.id)
      s1.annotatedSpacings (s1.annotatedSpacings, s1.live)).2

/-! ## Helper lemmas -/

/-- `jsRound` agrees with the `Int.floor`-based rounding formula. -/
theorem jsRound_eq_floor (x : ℚ) : jsRound x = ⌊x + 1 / 2⌋ := by
  unfold jsRound
  rw [Rat.floor_def', Rat.floor_def]

/-! ## Claims -/

/-- Claim C2: `retrieveSpacingValue` implements the fixed breakpoint table:
`None` for length ≥ 128, the descending bands 9..4 for the two-sided
intervals down to 16, and `round(length/4)` below 16; in particular the
boundary values 15, 16, 19, 20, 127 and 128 map to 4, 4, 4, 5, 9 and
`None` respectively. -/
theorem quantizer_breakpoint_table :
    (∀ length : ℚ, retrieveSpacingValue length = quantizeSpacingSpecTable length) ∧
    retrieveSpacingValue 15 = some 4 ∧
    retrieveSpacingValue 16 = some 4 ∧
    retrieveSpacingValue 19 = some 4 ∧
    retrieveSpacingValue 20 = some 5 ∧
    retrieveSpacingValue 127 = some 9 ∧
    retrieveSpacingValue 128 = none := by
  refine ⟨fun length => ?_, ?_, ?_, ?_, ?_, ?_, ?_⟩
  · unfold retrieveSpacingValue quantizeSpacingSpecTable
    rcases le_or_lt 128 length with h128 | h128
    · rw [if_pos h128, if_pos h128]
    · rw [if_neg (not_le.mpr h128), if_neg (not_le.mpr h128)]
      rcases le_or_lt 80 length with h80 | h80
      · rw [if_pos h80, if_pos ⟨h80, h128⟩]
      · rw [if_neg (not_le.mpr h80),
          if_neg (fun (hc : 80 ≤ length ∧ length < 128) => absurd hc.1 (not_le.mpr h80))]
        rcases le_or_lt 56 length with h56 | h56
        · rw [if_pos h56, if_pos ⟨h56, h80⟩]
        · rw [if_neg (not_le.mpr h56),
            if_neg (fun (hc : 56 ≤ length ∧ length < 80) => absurd hc.1 (not_le.mpr h56))]
          rcases le_or_lt 40 length with h40 | h40
          · rw [if_pos h40, if_pos ⟨h40, h56⟩]
          · rw [if_neg (not_le.mpr h40),
              if_neg (fun (hc : 40 ≤ length ∧ length < 56) => absurd hc.1 (not_le.mpr h40))]
            rcases le_or_lt 28 length with h28 | h28
            · rw [if_pos h28, if_pos ⟨h28, h40⟩]
            · rw [if_neg (not_le.mpr h28),
                if_neg (fun (hc : 28 ≤ length ∧ length < 40) => absurd hc.1 (not_le.mpr h28))]
              rcases le_or_lt 20 length with h20 | h20
              · rw [if_pos h20, if_pos ⟨h20, h28⟩]
              · rw [if_neg (not_le.mpr h20),
                  if_neg (fun (hc : 20 ≤ length ∧ length < 28) => absurd hc.1 (not_le.mpr h20))]
                rcases le_or_lt 16 length with h16 | h16
                · rw [if_pos h16, if_pos ⟨h16, h20⟩]
                · rw [if_neg (not_le.mpr h16),
                    if_neg (fun (hc : 16 ≤ length ∧ length < 20) => absurd hc.1 (not_le.mpr h16))]
  · norm_num [retrieveSpacingValue, jsRound_eq_floor]
  · norm_num [retrieveSpacingValue]
  · norm_num [retrieveSpacingValue]
  · norm_num [retrieveSpacingValue]
  · norm_num [retrieveSpacingValue]
  · norm_num [retrieveSpacingValue]

/-- Claim C6 (code slip evaluated): `Crawler.frame` is not monotone under
selection growth. The falsy check `!theFrame.x` treats a tracked minimum
of `0` as unset and overwrites it, so adding the layer at `x = 5` to the
singleton selection of the layer spanning `x ∈ [0, 10]` shrinks the
reported bounding width from 10 to 5. -/
theorem frame_monotonicity_failure :
    (crawlerFrame [⟨0, 0, 0, 10, 10, 0⟩]).width = 10 ∧
    (crawlerFrame [⟨0, 0, 0, 10, 10, 0⟩, ⟨1, 5, 0, 1, 10, 1⟩]).width = 5 ∧
    ¬((10 : ℚ) ≤ 5) := by
  refine ⟨?_, ?_, by norm_num⟩ <;>
    norm_num [crawlerFrame, frameStep, frameMinUpdate, frameOuterUpdate]

/-- Claim C7: every Painter annotation operation invoked for a layer with
no enclosing artboard returns an error-status result and leaves the
document state unchanged. -/
theorem no_artboard_error_no_mutation :
    ∀ (ls : Option LayerSettingsData) (layerId cgid gid gid2 : Nat)
      (g : Option GapFrame) (o : Option OverlapFrames)
      (ds : List SpacingDir) (gidf : SpacingDir → Nat) (s : DocState),
      (addAnnotOp ls false layerId cgid gid s).1.status = "error" ∧
      (addAnnotOp ls false layerId cgid gid s).2 = s ∧
      (addDimMeasurement false layerId cgid gid gid2 s).1.status = "error" ∧
      (addDimMeasurement false layerId cgid gid gid2 s).2 = s ∧
      (addGapMeasurement false g cgid gid s).1.status = "error" ∧
      (addGapMeasurement false g cgid gid s).2 = s ∧
      (addOverlapMeasurements false o ds cgid gidf s).1.status = "error" ∧
      (addOverlapMeasurements false o ds cgid gidf s).2 = s := by
  intro ls layerId cgid gid gid2 g o ds gidf s
  have hA : ∀ p : PainterResult × DocState,
      (addAnnotOp ls false layerId cgid gid s) = p →
      p.1.status = "error" ∧ p.2 = s := by
    intro p hp
    cases ls with
    | none => cases hp; exact ⟨rfl, rfl⟩
    | some v =>
      by_cases hv : jsFalsyStr v.annotationText = true
      · rw [addAnnotOp, if_pos hv] at hp; cases hp; exact ⟨rfl, rfl⟩
      · rw [addAnnotOp, if_neg hv, if_pos (by norm_num)] at hp
        cases hp; exact ⟨rfl, rfl⟩
  refine ⟨(hA _ rfl).1, (hA _ rfl).2, ?_, ?_, ?_, ?_, ?_, ?_⟩ <;>
    simp [addDimMeasurement, addGapMeasurement, addOverlapMeasurements]

/-- Claim C9: a spacing frame whose measured dimension is below 2 (and at
least -2, so the quantizer fallback rounds to the concrete value 0) gets
no annotation: the falsy check on the quantized value treats 0 exactly
like the out-of-range `None` case, and nothing is written to the
persisted settings. -/
theorem zero_spacing_value_skipped :
    ∀ (f : SpacingFrame) (cgid gid : Nat) (s : DocState),
      -2 ≤ spacingMeasurement f → spacingMeasurement f < 2 →
      retrieveSpacingValue (spacingMeasurement f) = some 0 ∧
      addSpacingAnnotOp f cgid gid s = (s, none) := by
  intro f cgid gid s h1 h2
  have hq : retrieveSpacingValue (spacingMeasurement f) = some 0 := by
    unfold retrieveSpacingValue
    rw [if_neg (by simp only [ge_iff_le, not_le]; linarith),
      if_neg (by simp only [ge_iff_le, not_le]; linarith),
      if_neg (by simp only [ge_iff_le, not_le]; linarith),
      if_neg (by simp only [ge_iff_le, not_le]; linarith),
      if_neg (by simp only [ge_iff_le, not_le]; linarith),
      if_neg (by simp only [ge_iff_le, not_le]; linarith),
      if_neg (by simp only [ge_iff_le, not_le]; linarith)]
    have hz : jsRound (spacingMeasurement f / 4) = 0 := by
      rw [jsRound_eq_floor]
      rw [Int.floor_eq_iff]
      refine ⟨by push_cast; linarith, by push_cast; linarith⟩
    rw [hz]
  refine ⟨hq, ?_⟩
  simp [addSpacingAnnotOp, hq, jsFalsyInt]

/-- Witness for C9 at a frame of measured dimension 1. -/
theorem zero_spacing_value_skipped_witness :
    retrieveSpacingValue
        (spacingMeasurement ⟨0, 0, 1, 7, Orient.vertical, 0, 1, SpacingDir.gap⟩)
      = some 0 ∧
    addSpacingAnnotOp ⟨0, 0, 1, 7, Orient.vertical, 0, 1, SpacingDir.gap⟩ 3 4
        ⟨[], [], [], []⟩ = (⟨[], [], [], []⟩, none) :=
  zero_spacing_value_skipped ⟨0, 0, 1, 7, Orient.vertical, 0, 1, SpacingDir.gap⟩
    3 4 ⟨[], [], [], []⟩ (by norm_num [spacingMeasurement])
    (by norm_num [spacingMeasurement])

/-- Claim C8: for two elements spanning `x ∈ [0, 50]` and `x ∈ [80, 130]`
with identical y-ranges, `gapFrame` returns a frame with `x = 50`,
`width = 30` and vertical orientation, and the spacing annotation text for
that gap is `IS-6` (since the quantizer maps 30 to 6). -/
theorem gap_scenario_is_six :
    ∀ (y h : ℚ) (idA idB : Nat) (rA rB : ℚ),
      ∃ fr : GapFrame,
        gapFrame [⟨idA, 0, y, 50, h, rA⟩, ⟨idB, 80, y, 50, h, rB⟩] = some fr ∧
        fr.x = 50 ∧ fr.width = 30 ∧ fr.orientation = Orient.vertical ∧
        spacingAnnotText (gapToSpacingFrame fr) = some "IS-6" := by
  intro y h idA idB rA rB
  have hgap : gapFrame [⟨idA, 0, y, 50, h, rA⟩, ⟨idB, 80, y, 50, h, rB⟩] =
      some ⟨50,
        (gapBandY ⟨idA, 0, y, 50, h, rA⟩ ⟨idB, 80, y, 50, h, rB⟩).1 +
          ((gapBandY ⟨idA, 0, y, 50, h, rA⟩ ⟨idB, 80, y, 50, h, rB⟩).2 -
            (gapBandY ⟨idA, 0, y, 50, h, rA⟩ ⟨idB, 80, y, 50, h, rB⟩).1) / 2,
        30,
        (gapBandY ⟨idA, 0, y, 50, h, rA⟩ ⟨idB, 80, y, 50, h, rB⟩).2 -
          (gapBandY ⟨idA, 0, y, 50, h, rA⟩ ⟨idB, 80, y, 50, h, rB⟩).1,
        Orient.vertical, idA, idB⟩ := by
    have hmin : minXLayer ⟨idA, 0, y, 50, h, rA⟩
        [⟨idA, 0, y, 50, h, rA⟩, ⟨idB, 80, y, 50, h, rB⟩] =
        ⟨idA, 0, y, 50, h, rA⟩ := by
      norm_num [minXLayer]
    have hmax : maxXLayer ⟨idA, 0, y, 50, h, rA⟩
        [⟨idA, 0, y, 50, h, rA⟩, ⟨idB, 80, y, 50, h, rB⟩] =
        ⟨idB, 80, y, 50, h, rB⟩ := by
      norm_num [maxXLayer]
    rw [gapFrame, hmin, hmax]
    norm_num
  refine ⟨_, hgap, rfl, rfl, rfl, ?_⟩
  have h30 : retrieveSpacingValue 30 = some 6 := by
    norm_num [retrieveSpacingValue]
  simp [spacingAnnotText, gapToSpacingFrame, spacingMeasurement, h30, jsFalsyInt]
  rfl

/-- Claim C10: placement with a `left`/`right` orientation unconditionally
rebuilds the measure icon, so it faults (returns no placement) exactly when
the built annotation carries no icon; with an icon, or with the `top`
orientation, it always succeeds, and `buildAnnotation` equips the
measurement types (`dimension`, `spacing`) — the only types the in-repo
callers combine with `left`/`right` — with an icon. -/
theorem leftright_orientation_icon_safety :
    (∀ (a : AnnotElems) (lf : LayerFrameArg) (t : AnnotType) (o : PlaceOrient),
        o ≠ PlaceOrient.top → a.hasIcon = false →
        positionAnnotPlacement a lf t o = none) ∧
    (∀ (a : AnnotElems) (lf : LayerFrameArg) (t : AnnotType) (o : PlaceOrient),
        o = PlaceOrient.top ∨ a.hasIcon = true →
        positionAnnotPlacement a lf t o ≠ none) ∧
    builtIconPresent AnnotType.dimension = true ∧
    builtIconPresent AnnotType.spacing = true := by
  refine ⟨?_, ?_, rfl, rfl⟩
  · intro a lf t o ho hic
    cases o with
    | top => exact absurd rfl ho
    | left => simp [positionAnnotPlacement, hic]
    | right => simp [positionAnnotPlacement, hic]
  · intro a lf t o ho
    rcases ho with rfl | hic
    · simp [positionAnnotPlacement]
    · cases o <;> simp [positionAnnotPlacement, hic]

/-- Witness for C10: a left-oriented non-measurement annotation without an
icon faults, while a left-oriented spacing annotation with its icon places
successfully. -/
theorem leftright_orientation_icon_safety_witness :
    positionAnnotPlacement ⟨50, 26, false⟩ ⟨200, 200, 10, 10, 100, 100⟩
        AnnotType.component PlaceOrient.left = none ∧
    positionAnnotPlacement ⟨50, 18, true⟩ ⟨200, 200, 10, 10, 100, 100⟩
        AnnotType.spacing PlaceOrient.left ≠ none :=
  ⟨leftright_orientation_icon_safety.1 ⟨50, 26, false⟩
      ⟨200, 200, 10, 10, 100, 100⟩ AnnotType.component PlaceOrient.left
      (by simp) rfl,
    leftright_orientation_icon_safety.2.1 ⟨50, 18, true⟩
      ⟨200, 200, 10, 10, 100, 100⟩ AnnotType.spacing PlaceOrient.left
      (Or.inr rfl)⟩

/-- X-axis bounds of the bleed corrections: with at least 6 units of
horizontal margin beyond the card, the corrected `placementX` never bleeds
on either side. -/
theorem bleedCorrectX_bounds (hasIcon : Bool) (aw w px : ℚ) (hw : w + 6 ≤ aw) :
    0 ≤ bleedCorrectX hasIcon aw w px ∧ bleedCorrectX hasIcon aw w px + w ≤ aw := by
  simp only [bleedCorrectX]
  split_ifs <;> constructor <;> linarith

/-- Y-axis bounds of the bleed corrections: with at least 5 units of
vertical margin beyond the group, the corrected `placementY` never bleeds
on either side. -/
theorem bleedCorrectY_bounds (hasIcon : Bool) (ah h py : ℚ) (hh : h + 5 ≤ ah) :
    0 ≤ bleedCorrectY hasIcon ah h py ∧ bleedCorrectY hasIcon ah h py + h ≤ ah := by
  simp only [bleedCorrectY]
  split_ifs <;> constructor <;> linarith

/-- Claim C4 is falsified as stated: on a canvas exactly as wide as the
annotation card (canvas 50×100, card 50×30), a top-oriented placement for
a layer near the right edge is right-clamped to `x = -3`, bleeding past
the left canvas edge even though the canvas is at least as large as the
card. -/
theorem placement_bleed_on_minimal_canvas :
    positionAnnotPlacement ⟨50, 26, false⟩ ⟨50, 100, 10, 10, 40, 50⟩
        AnnotType.component PlaceOrient.top = some ⟨-3, 12, 50, 30⟩ ∧
    (50 : ℚ) ≤ 50 ∧ (30 : ℚ) ≤ 100 ∧ (-3 : ℚ) < 0 := by
  refine ⟨?_, by norm_num, by norm_num, by norm_num⟩
  simp [positionAnnotPlacement, bleedCorrectX, bleedCorrectY, placeStartX,
    placeStartY, isMeasurementType]
  norm_num

/-- Claim C4 (amended): the no-bleed invariant holds once the canvas
leaves room for the fixed clamp margins: if
`artboardWidth ≥ cardWidth + 6` and `artboardHeight ≥ cardHeight + 5`
(card height = rectangle height + 4), every produced placement satisfies
`0 ≤ x`, `x + width ≤ artboardWidth`, `0 ≤ y`, and
`y + height ≤ artboardHeight` for top orientation — left/right
orientations can exceed the bottom edge by at most the 2-unit diamond
nudge. -/
theorem placement_no_bleed_with_margins :
    ∀ (a : AnnotElems) (lf : LayerFrameArg) (t : AnnotType) (o : PlaceOrient)
      (g : PlacedGroup),
      a.rectWidth + 6 ≤ lf.artboardWidth →
      a.rectHeight + 4 + 5 ≤ lf.artboardHeight →
      positionAnnotPlacement a lf t o = some g →
      0 ≤ g.x ∧ g.x + g.width ≤ lf.artboardWidth ∧ 0 ≤ g.y ∧
      g.y + g.height ≤ lf.artboardHeight + 2 ∧
      (o = PlaceOrient.top → g.y + g.height ≤ lf.artboardHeight) := by
  intro a lf t o g hw hh hp
  have hx := bleedCorrectX_bounds a.hasIcon lf.artboardWidth a.rectWidth
    (placeStartX (isMeasurementType t) lf a.rectWidth o) (by linarith)
  have hy := bleedCorrectY_bounds a.hasIcon lf.artboardHeight (a.rectHeight + 4)
    (placeStartY (isMeasurementType t) lf (a.rectHeight + 4) o) (by linarith)
  simp only [positionAnnotPlacement] at hp
  by_cases ho : o = PlaceOrient.top
  · rw [if_pos ho] at hp
    injection hp with hg
    subst hg
    dsimp only
    exact ⟨hx.1, hx.2, hy.1, by linarith [hy.2], fun _ => hy.2⟩
  · rw [if_neg ho] at hp
    by_cases hic : a.hasIcon = true
    · rw [if_pos hic] at hp
      injection hp with hg
      subst hg
      dsimp only
      exact ⟨hx.1, hx.2, by linarith [hy.1], by linarith [hy.2],
        fun hcon => absurd hcon ho⟩
    · rw [if_neg hic] at hp
      exact Option.noConfusion hp

/-- Witness for the amended C4 on a 100×100 canvas with a 50×30 card. -/
theorem placement_no_bleed_with_margins_witness :
    0 ≤ (⟨0, 12, 50, 30⟩ : PlacedGroup).x ∧
    (⟨0, 12, 50, 30⟩ : PlacedGroup).x + (⟨0, 12, 50, 30⟩ : PlacedGroup).width
      ≤ (100 : ℚ) ∧
    0 ≤ (⟨0, 12, 50, 30⟩ : PlacedGroup).y ∧
    (⟨0, 12, 50, 30⟩ : PlacedGroup).y + (⟨0, 12, 50, 30⟩ : PlacedGroup).height
      ≤ (100 : ℚ) + 2 ∧
    (PlaceOrient.top = PlaceOrient.top →
      (⟨0, 12, 50, 30⟩ : PlacedGroup).y + (⟨0, 12, 50, 30⟩ : PlacedGroup).height
        ≤ (100 : ℚ)) := by
  have hres : positionAnnotPlacement ⟨50, 26, false⟩ ⟨100, 100, 10, 10, 20, 50⟩
      AnnotType.component PlaceOrient.top = some ⟨0, 12, 50, 30⟩ := by
    simp [positionAnnotPlacement, bleedCorrectX, bleedCorrectY, placeStartX,
      placeStartY, isMeasurementType]
    norm_num
  exact placement_no_bleed_with_margins ⟨50, 26, false⟩
    ⟨100, 100, 10, 10, 20, 50⟩ AnnotType.component PlaceOrient.top
    ⟨0, 12, 50, 30⟩ (by norm_num) (by norm_num) hres

/-- For a two-layer selection that `gapFrame` rejects, `overlapFrames`
returns `none` exactly when the two relative z-indices tie. -/
theorem overlapFrames_pair_none_iff (a b : Layer) (hg : gapFrame [a, b] = none) :
    (overlapFrames [a, b] = none ↔ a.rIndex = b.rIndex) := by
  rcases lt_trichotomy a.rIndex b.rIndex with h | h | h
  · have e1 : zStep ⟨a, a.rIndex, b, b.rIndex⟩ a = ⟨a, a.rIndex, b, b.rIndex⟩ := by
      simp [zStep, lt_asymm h, lt_irrefl]
    have e2 : zStep ⟨a, a.rIndex, b, b.rIndex⟩ b = ⟨a, a.rIndex, b, b.rIndex⟩ := by
      simp [zStep, lt_asymm h, lt_irrefl]
    simp [overlapFrames, hg, e1, e2, h.ne]
  · have e1 : zStep ⟨a, a.rIndex, b, b.rIndex⟩ a = ⟨a, a.rIndex, b, b.rIndex⟩ := by
      simp [zStep, h, lt_irrefl]
    have e2 : zStep ⟨a, a.rIndex, b, b.rIndex⟩ b = ⟨a, a.rIndex, b, b.rIndex⟩ := by
      simp [zStep, h, lt_irrefl]
    simp [overlapFrames, hg, e1, e2]
  · have e1 : zStep ⟨a, a.rIndex, b, b.rIndex⟩ a = ⟨a, a.rIndex, a, a.rIndex⟩ := by
      simp [zStep, h, lt_irrefl, lt_asymm h]
    have e2 : zStep ⟨a, a.rIndex, a, a.rIndex⟩ b = ⟨b, b.rIndex, a, a.rIndex⟩ := by
      simp [zStep, h, lt_irrefl, lt_asymm h]
    simp [overlapFrames, hg, e1, e2, h.ne, h.ne']

/-- Claim C1: for any two layers, at most one of `gapFrame` and
`overlapFrames` yields a result; when both are absent the two synthesized
relative z-indices tie; and for distinct z-indices exactly one of the two
yields a result. -/
theorem gap_overlap_exclusive :
    ∀ a b : Layer,
      ((gapFrame [a, b]).isSome = false ∨ (overlapFrames [a, b]).isSome = false) ∧
      (gapFrame [a, b] = none → overlapFrames [a, b] = none →
        a.rIndex = b.rIndex) ∧
      (a.rIndex ≠ b.rIndex →
        (gapFrame [a, b] = none ↔ (overlapFrames [a, b]).isSome = true)) := by
  intro a b
  refine ⟨?_, ?_, ?_⟩
  · cases hcase : gapFrame [a, b] with
    | none => exact Or.inl (by simp [hcase])
    | some g => exact Or.inr (by simp [overlapFrames, hcase])
  · intro hg ho
    exact (overlapFrames_pair_none_iff a b hg).mp ho
  · intro hne
    constructor
    · intro hg
      rw [← Option.ne_none_iff_isSome]
      exact fun ho => hne ((overlapFrames_pair_none_iff a b hg).mp ho)
    · intro hos
      cases hcase : gapFrame [a, b] with
      | none => rfl
      | some g =>
        have hn : overlapFrames [a, b] = none := by simp [overlapFrames, hcase]
        rw [hn] at hos
        simp at hos

/-- Witness for C1: a contained overlapping pair with tied z-indices (both
results absent), and a separated pair with distinct z-indices (exactly one
result present). -/
theorem gap_overlap_exclusive_witness :
    (⟨0, 0, 0, 10, 10, 5⟩ : Layer).rIndex = (⟨1, 2, 2, 5, 5, 5⟩ : Layer).rIndex ∧
    (gapFrame [⟨0, 0, 0, 10, 10, 0⟩, ⟨1, 50, 0, 10, 10, 1⟩] = none ↔
      (overlapFrames [⟨0, 0, 0, 10, 10, 0⟩, ⟨1, 50, 0, 10, 10, 1⟩]).isSome = true) :=
  ⟨(gap_overlap_exclusive ⟨0, 0, 0, 10, 10, 5⟩ ⟨1, 2, 2, 5, 5, 5⟩).2.1
      (by norm_num [gapFrame, minXLayer, maxXLayer, minYLayer, maxYLayer])
      (by norm_num [overlapFrames, gapFrame, minXLayer, maxXLayer, minYLayer,
        maxYLayer, zStep]),
    (gap_overlap_exclusive ⟨0, 0, 0, 10, 10, 0⟩ ⟨1, 50, 0, 10, 10, 1⟩).2.2
      (by norm_num)⟩

/-- A two-layer selection with the second layer's frame contained in the
first's is rejected by `gapFrame` (no gap on either axis). -/
theorem gapFrame_pair_none_of_contained (a b : Layer)
    (haw : 0 ≤ a.width) (hah : 0 ≤ a.height)
    (hbw : 0 ≤ b.width) (hbh : 0 ≤ b.height)
    (hx : a.x ≤ b.x) (hy : a.y ≤ b.y)
    (hxw : b.x + b.width ≤ a.x + a.width)
    (hyh : b.y + b.height ≤ a.y + a.height) :
    gapFrame [a, b] = none := by
  have hminx : minXLayer a [a, b] = a := by
    simp [minXLayer, lt_irrefl, not_lt.mpr hx]
  have hminy : minYLayer a [a, b] = a := by
    simp [minYLayer, lt_irrefl, not_lt.mpr hy]
  by_cases hbx : a.x < b.x
  · have hmaxx : maxXLayer a [a, b] = b := by
      simp [maxXLayer, lt_irrefl, hbx]
    have hmaxy : maxYLayer b [a, b] = b := by
      simp [maxYLayer, lt_irrefl, not_lt.mpr hy]
    simp only [gapFrame, hminx, hmaxx, hminy, hmaxy]
    rw [if_neg (by linarith), if_neg (by linarith)]
  · have hmaxx : maxXLayer a [a, b] = a := by
      simp [maxXLayer, lt_irrefl, hbx]
    by_cases hby : a.y < b.y
    · have hmaxy : maxYLayer a [a, b] = b := by
        simp [maxYLayer, lt_irrefl, hby]
      simp only [gapFrame, hminx, hmaxx, hminy, hmaxy]
      rw [if_neg (by linarith), if_neg (by linarith)]
    · have hmaxy : maxYLayer a [a, b] = a := by
        simp [maxYLayer, lt_irrefl, hby]
      simp only [gapFrame, hminx, hmaxx, hminy, hmaxy]
      rw [if_neg (by linarith), if_neg (by linarith)]

/-- Claim C5 is falsified as stated: two overlapping layers with distinct
z-indices where the front layer sticks out above the back layer produce an
overlap result whose `top` quadrant has height `-10 < 0`. -/
theorem overlap_negative_quadrant :
    overlapFrames [⟨0, 0, 10, 50, 50, 0⟩, ⟨1, 10, 0, 20, 30, 1⟩]
      = some ⟨⟨10, 10, 20, -10, Orient.horizontal⟩,
              ⟨10, 30, 20, 30, Orient.horizontal⟩,
              ⟨30, 0, 20, 30, Orient.vertical⟩,
              ⟨0, 0, 10, 30, Orient.vertical⟩, 0, 1⟩ ∧
    (-10 : ℚ) < 0 := by
  constructor
  · norm_num [overlapFrames, gapFrame, minXLayer, maxXLayer, minYLayer,
      maxYLayer, zStep]
  · norm_num

/-- Claim C5 (amended): quadrant frames of `overlapFrames` can have
negative width or height in general (the caller suppresses any side whose
width or height is ≤ 2); they are all non-negative whenever the front
(higher z-index) layer's frame is contained in the back layer's frame and
the layer dimensions are non-negative. `Crawler.frame` widths/heights are
likewise non-negative on such selections. -/
theorem overlap_quadrants_nonneg_contained :
    ∀ a b : Layer,
      0 ≤ a.width → 0 ≤ a.height → 0 ≤ b.width → 0 ≤ b.height →
      a.rIndex < b.rIndex →
      a.x ≤ b.x → a.y ≤ b.y →
      b.x + b.width ≤ a.x + a.width → b.y + b.height ≤ a.y + a.height →
      (overlapFrames [a, b]).elim False quadrantsNonneg := by
  intro a b haw hah hbw hbh hr hx hy hxw hyh
  have hg : gapFrame [a, b] = none :=
    gapFrame_pair_none_of_contained a b haw hah hbw hbh hx hy hxw hyh
  have e1 : zStep ⟨a, a.rIndex, b, b.rIndex⟩ a = ⟨a, a.rIndex, b, b.rIndex⟩ := by
    simp [zStep, lt_asymm hr, lt_irrefl]
  have e2 : zStep ⟨a, a.rIndex, b, b.rIndex⟩ b = ⟨a, a.rIndex, b, b.rIndex⟩ := by
    simp [zStep, lt_asymm hr, lt_irrefl]
  simp only [overlapFrames, hg, Option.isSome_none, Bool.false_eq_true, if_false,
    List.foldl, e1, e2, List.getLast?_singleton, Option.getD_some]
  rw [if_neg hr.ne]
  simp only [Option.elim, quadrantsNonneg]
  exact ⟨hbw, by linarith, hbw, by linarith, by linarith, hbh, by linarith, hbh⟩

/-- Witness for the amended C5: a 5×5 layer in front of a containing
10×10 layer yields four non-negative quadrants. -/
theorem overlap_quadrants_nonneg_contained_witness :
    (overlapFrames [⟨0, 0, 0, 10, 10, 0⟩, ⟨1, 2, 2, 5, 5, 1⟩]).elim False
      quadrantsNonneg :=
  overlap_quadrants_nonneg_contained ⟨0, 0, 0, 10, 10, 0⟩ ⟨1, 2, 2, 5, 5, 1⟩
    (by norm_num) (by norm_num) (by norm_num) (by norm_num) (by norm_num)
    (by norm_num) (by norm_num) (by norm_num) (by norm_num)

/-- `findIndex` semantics of `updateArray remove`: the first matching
element after a non-matching prefix is found at the prefix length. -/
theorem findIdx_middle {α : Type} (q : α → Bool) (pre rest : List α) (r : α)
    (hpre : ∀ x ∈ pre, q x = false) (hr : q r = true) :
    ∀ i : Nat, List.findIdx? q (pre ++ r :: rest) i = some (pre.length + i) := by
  induction pre with
  | nil => intro i; simp [List.findIdx?_cons, hr]
  | cons x pre ih =>
    intro i
    have hx : q x = false := hpre x (by simp)
    simp only [List.cons_append, List.findIdx?_cons, hx, Bool.false_eq_true,
      if_false]
    rw [ih (fun y hy => hpre y (by simp [hy])) (i + 1)]
    congr 1
    simp [List.length_cons]
    omega

/-- `updateArray remove` deletes exactly the first record carrying the
sought id when no earlier record carries it. -/
theorem updateArrayRemove_middle {α : Type} (idOf : α → Nat) (pre rest : List α)
    (r : α) (hpre : ∀ x ∈ pre, idOf x ≠ idOf r) :
    updateArrayRemove idOf (pre ++ r :: rest) (idOf r) = pre ++ rest := by
  unfold updateArrayRemove
  rw [findIdx_middle (fun x => idOf x == idOf r) pre rest r
    (fun x hx => by simp [hpre x hx]) (by simp) 0]
  simp only [Nat.add_zero]
  rw [List.take_left]
  rw [show pre ++ r :: rest = (pre ++ [r]) ++ rest by simp]
  rw [List.drop_left' (show (pre ++ [r]).length = pre.length + 1 by simp)]

/-- Characterization of the upsert removal loop: starting from a snapshot
whose record ids are pairwise distinct, it removes exactly the matching
records from the ledger and exactly their visual groups from the document,
preserving order. -/
theorem upsertRemoveLoop_spec {α : Type} (p : α → Bool) (idOf : α → Nat) :
    ∀ (todo pre : List α) (live : List Nat),
      ((pre ++ todo).map idOf).Nodup →
      (∀ r ∈ pre, p r = false) →
      upsertRemoveLoop p idOf todo (pre ++ todo, live) =
        (pre ++ todo.filter (fun r => !p r),
         live.filter (fun g => !((todo.filter p).map idOf).contains g)) := by
  intro todo
  induction todo with
  | nil =>
    intro pre live hnd hpre
    simp [upsertRemoveLoop]
  | cons r rest ih =>
    intro pre live hnd hpre
    by_cases hp : p r = true
    · have hnd' : (List.map idOf pre ++ idOf r :: List.map idOf rest).Nodup := by
        simpa using hnd
      have hpre_ne : ∀ x ∈ pre, idOf x ≠ idOf r := by
        intro x hx heq
        have hdisj := List.disjoint_of_nodup_append hnd'
        exact hdisj (List.mem_map_of_mem idOf hx) (by simp [heq])
      have hstep : upsertRemoveLoop p idOf (r :: rest) (pre ++ r :: rest, live) =
          upsertRemoveLoop p idOf rest
            (pre ++ rest, live.filter (fun g => g ≠ idOf r)) := by
        simp only [upsertRemoveLoop, List.foldl_cons, hp, if_true]
        rw [updateArrayRemove_middle idOf pre rest r hpre_ne]
      rw [hstep]
      have hnd2 : ((pre ++ rest).map idOf).Nodup := by
        have hsub : List.Sublist ((pre ++ rest).map idOf)
            ((pre ++ r :: rest).map idOf) := by
          simp only [List.map_append, List.map_cons]
          exact List.Sublist.append_left
            (List.sublist_cons_self (idOf r) (List.map idOf rest))
            (List.map idOf pre)
        exact hsub.nodup hnd
      rw [ih pre (live.filter (fun g => g ≠ idOf r)) hnd2 hpre]
      simp only [Prod.mk.injEq]
      constructor
      · simp [hp]
      · rw [List.filter_filter]
        apply List.filter_congr
        intro g hg
        by_cases hgr : g = idOf r <;>
          simp [hp, List.contains_cons, Bool.and_comm, hgr]
    · have hpf : p r = false := by simpa using hp
      have hstep : upsertRemoveLoop p idOf (r :: rest) (pre ++ r :: rest, live) =
          upsertRemoveLoop p idOf rest ((pre ++ [r]) ++ rest, live) := by
        simp only [upsertRemoveLoop, List.foldl_cons, hpf, Bool.false_eq_true,
          if_false, List.append_assoc, List.singleton_append]
      rw [hstep]
      have hnd2 : (((pre ++ [r]) ++ rest).map idOf).Nodup := by
        simpa using hnd
      have hpre2 : ∀ x ∈ pre ++ [r], p x = false := by
        intro x hx
        rcases List.mem_append.mp hx with hx1 | hx2
        · exact hpre x hx1
        · rw [List.mem_singleton.mp hx2]; exact hpf
      rw [ih (pre ++ [r]) live hnd2 hpre2]
      simp only [Prod.mk.injEq]
      constructor
      · simp [hpf]
      · apply List.filter_congr
        intro g hg
        simp [hpf]

/-- Post-state of a successful `Painter.addAnnotation` call: matching
records replaced by the single new record at the end of the ledger, their
visual groups deleted, the new group created. -/
theorem addAnnotOp_state (ls : LayerSettingsData)
    (hts : jsFalsyStr ls.annotationText = false)
    (layerId cgid gid : Nat) (s : DocState)
    (hnd : (s.annotatedLayers.map (fun r => r.id)).Nodup) :
    (addAnnotOp (some ls) true layerId cgid gid s).2 =
      { s with
        annotatedLayers :=
          s.annotatedLayers.filter (fun r => !(r.originalId == layerId)) ++
            [⟨cgid, gid, layerId⟩],
        live := s.live.filter (fun g =>
            !((s.annotatedLayers.filter
                (fun r => r.originalId == layerId)).map (fun r => r.id)).contains g)
          ++ [gid] } := by
  have hloop := upsertRemoveLoop_spec
    (fun r : AnnotRecord => r.originalId == layerId)
    (fun r => r.id) s.annotatedLayers [] s.live (by simpa using hnd) (by simp)
  simp only [List.nil_append] at hloop
  simp only [addAnnotOp, hts, Bool.false_eq_true, if_false, Bool.not_true]
  rw [hloop]

/-- Upserting the same layer annotation twice leaves exactly one live
record for the key, carrying the second visual group id, and never two
live visuals for the key even within the second call. -/
theorem annotUpsertTwice :
    ∀ (ls : LayerSettingsData) (layerId cgid g1 g2 : Nat) (s0 : DocState),
      jsFalsyStr ls.annotationText = false →
      (s0.annotatedLayers.map (fun r => r.id)).Nodup →
      g1 ∉ s0.annotatedLayers.map (fun r => r.id) →
      g1 ∉ s0.live → g2 ≠ g1 →
      annotUpsertOutcome layerId cgid g1 g2
        ((addAnnotOp (some ls) true layerId cgid g1 s0).2)
        ((addAnnotOp (some ls) true layerId cgid g2
          ((addAnnotOp (some ls) true layerId cgid g1 s0).2)).2) := by
  intro ls layerId cgid g1 g2 s0 hts hnd hg1ids hg1live hg21
  have hs1 := addAnnotOp_state ls hts layerId cgid g1 s0 hnd
  rw [hs1]
  set F0 := s0.annotatedLayers.filter (fun r => !(r.originalId == layerId))
    with hF0def
  set L0 := s0.live.filter (fun g =>
    !((s0.annotatedLayers.filter
        (fun r => r.originalId == layerId)).map (fun r => r.id)).contains g)
    with hL0def
  have hF0mem : ∀ r ∈ F0, (r.originalId == layerId) = false := by
    intro r hr
    have := List.of_mem_filter hr
    simpa using this
  have hndF0 : (F0.map (fun r => r.id)).Nodup := by
    refine List.Nodup.sublist ?_ hnd
    exact List.Sublist.map _ (List.filter_sublist _)
  have hsubids : ∀ g, g ∈ F0.map (fun r => r.id) →
      g ∈ s0.annotatedLayers.map (fun r => r.id) := by
    intro g hg
    exact List.Sublist.mem hg (List.Sublist.map _ (List.filter_sublist _))
  have hnd1 : ((F0 ++ [(⟨cgid, g1, layerId⟩ : AnnotRecord)]).map
      (fun r => r.id)).Nodup := by
    rw [List.map_append]
    refine List.Nodup.append hndF0 (by simp) ?_
    intro x hx hx2
    simp only [List.map_cons, List.map_nil, List.mem_singleton] at hx2
    subst hx2
    exact hg1ids (hsubids _ hx)
  set s1r : DocState :=
    { s0 with annotatedLayers := F0 ++ [(⟨cgid, g1, layerId⟩ : AnnotRecord)],
              live := L0 ++ [g1] } with hs1rdef
  have hnd1r : (s1r.annotatedLayers.map (fun r => r.id)).Nodup := hnd1
  have hs2 := addAnnotOp_state ls hts layerId cgid g2 s1r hnd1r
  rw [hs2]
  have hkeep : (F0 ++ [(⟨cgid, g1, layerId⟩ : AnnotRecord)]).filter
      (fun r => !(r.originalId == layerId)) = F0 := by
    rw [List.filter_append]
    have h1 : F0.filter (fun r => !(r.originalId == layerId)) = F0 := by
      rw [List.filter_eq_self]
      intro r hr
      simp [hF0mem r hr]
    have h2 : ([(⟨cgid, g1, layerId⟩ : AnnotRecord)]).filter
        (fun r => !(r.originalId == layerId)) = [] := by
      simp
    rw [h1, h2, List.append_nil]
  have hmatch1 : (F0 ++ [(⟨cgid, g1, layerId⟩ : AnnotRecord)]).filter
      (fun r => r.originalId == layerId)
      = [(⟨cgid, g1, layerId⟩ : AnnotRecord)] := by
    rw [List.filter_append]
    have h1 : F0.filter (fun r => r.originalId == layerId) = [] := by
      rw [List.filter_eq_nil_iff]
      intro r hr
      simp [hF0mem r hr]
    have h2 : ([(⟨cgid, g1, layerId⟩ : AnnotRecord)]).filter
        (fun r => r.originalId == layerId)
        = [(⟨cgid, g1, layerId⟩ : AnnotRecord)] := by
      simp
    rw [h1, h2, List.nil_append]
  have hF0match : F0.filter (fun r => r.originalId == layerId) = [] := by
    rw [List.filter_eq_nil_iff]
    intro r hr
    simp [hF0mem r hr]
  have hloop1 := upsertRemoveLoop_spec
    (fun r : AnnotRecord => r.originalId == layerId)
    (fun r => r.id) s1r.annotatedLayers [] s1r.live (by simpa using hnd1r)
    (by simp)
  simp only [List.nil_append] at hloop1
  unfold annotUpsertOutcome
  refine ⟨?_, ?_, ?_, ?_, ?_⟩
  · show ((s1r.annotatedLayers.filter (fun r => !(r.originalId == layerId)) ++
        [(⟨cgid, g2, layerId⟩ : AnnotRecord)]).filter
        (fun r => r.originalId == layerId)) = [⟨cgid, g2, layerId⟩]
    rw [show s1r.annotatedLayers = F0 ++ [(⟨cgid, g1, layerId⟩ : AnnotRecord)]
      from rfl]
    rw [hkeep, List.filter_append, hF0match]
    simp
  · show g1 ∉ (s1r.live.filter (fun g =>
        !((s1r.annotatedLayers.filter
            (fun r => r.originalId == layerId)).map (fun r => r.id)).contains g)
      ++ [g2])
    rw [show s1r.annotatedLayers = F0 ++ [(⟨cgid, g1, layerId⟩ : AnnotRecord)]
      from rfl, hmatch1]
    intro hmem
    rcases List.mem_append.mp hmem with h | h
    · have := List.of_mem_filter h
      simp at this
    · rw [List.mem_singleton] at h
      exact hg21 h.symm
  · show g2 ∈ (s1r.live.filter (fun g =>
        !((s1r.annotatedLayers.filter
            (fun r => r.originalId == layerId)).map (fun r => r.id)).contains g)
      ++ [g2])
    simp
  · rw [hloop1]
    show ((s1r.annotatedLayers.filter (fun r => !(r.originalId == layerId))).filter
        (fun r => r.originalId == layerId)) = []
    rw [show s1r.annotatedLayers = F0 ++ [(⟨cgid, g1, layerId⟩ : AnnotRecord)]
      from rfl, hkeep, hF0match]
  · rw [hloop1]
    show g1 ∉ s1r.live.filter (fun g =>
        !((s1r.annotatedLayers.filter
            (fun r => r.originalId == layerId)).map (fun r => r.id)).contains g)
    rw [show s1r.annotatedLayers = F0 ++ [(⟨cgid, g1, layerId⟩ : AnnotRecord)]
      from rfl, hmatch1]
    intro hmem
    have := List.of_mem_filter hmem
    simp at this

/-- Post-state of a successful `Painter.addSpacingAnnotation` call,
keyed by the `(layerAId, layerBId, direction)` triple. -/
theorem addSpacingAnnotOp_state (f : SpacingFrame)
    (hv : jsFalsyInt (retrieveSpacingValue (spacingMeasurement f)) = false)
    (cgid gid : Nat) (s : DocState)
    (hnd : (s.annotatedSpacings.map (fun r => r.id)).Nodup) :
    (addSpacingAnnotOp f cgid gid s).1 =
      { s with
        annotatedSpacings :=
          s.annotatedSpacings.filter (fun r => !(r.layerAId == f.layerAId &&
              r.layerBId == f.layerBId && r.direction == f.direction)) ++
            [⟨cgid, gid, f.layerAId, f.layerBId, f.direction⟩],
        live := s.live.filter (fun g =>
            !((s.annotatedSpacings.filter (fun r => r.layerAId == f.layerAId &&
                r.layerBId == f.layerBId && r.direction == f.direction)).map
                  (fun r => r.id)).contains g)
          ++ [gid] } := by
  have hloop := upsertRemoveLoop_spec
    (fun r : SpacingRecord => r.layerAId == f.layerAId &&
      r.layerBId == f.layerBId && r.direction == f.direction)
    (fun r => r.id) s.annotatedSpacings [] s.live (by simpa using hnd) (by simp)
  simp only [List.nil_append] at hloop
  simp only [addSpacingAnnotOp, hv, Bool.false_eq_true, if_false]
  rw [hloop]

/-- Upserting the same spacing annotation twice leaves exactly one live
record for the triple key, carrying the second visual group id, and never
two live visuals for the key even within the second call. -/
theorem spacingUpsertTwice :
    ∀ (f : SpacingFrame) (cgid g1 g2 : Nat) (s0 : DocState),
      jsFalsyInt (retrieveSpacingValue (spacingMeasurement f)) = false →
      (s0.annotatedSpacings.map (fun r => r.id)).Nodup →
      g1 ∉ s0.annotatedSpacings.map (fun r => r.id) →
      g1 ∉ s0.live → g2 ≠ g1 →
      spacingUpsertOutcome f cgid g1 g2
        ((addSpacingAnnotOp f cgid g1 s0).1)
        ((addSpacingAnnotOp f cgid g2 ((addSpacingAnnotOp f cgid g1 s0).1)).1) := by
  intro f cgid g1 g2 s0 hv hnd hg1ids hg1live hg21
  have hs1 := addSpacingAnnotOp_state f hv cgid g1 s0 hnd
  rw [hs1]
  set F0 := s0.annotatedSpacings.filter (fun r => !(r.layerAId == f.layerAId &&
    r.layerBId == f.layerBId && r.direction == f.direction)) with hF0def
  set L0 := s0.live.filter (fun g =>
    !((s0.annotatedSpacings.filter (fun r => r.layerAId == f.layerAId &&
        r.layerBId == f.layerBId && r.direction == f.direction)).map
          (fun r => r.id)).contains g) with hL0def
  set R1 : SpacingRecord := ⟨cgid, g1, f.layerAId, f.layerBId, f.direction⟩
    with hR1def
  set R2 : SpacingRecord := ⟨cgid, g2, f.layerAId, f.layerBId, f.direction⟩
    with hR2def
  have hF0mem : ∀ r ∈ F0, (r.layerAId == f.layerAId &&
      r.layerBId == f.layerBId && r.direction == f.direction) = false := by
    intro r hr
    have h2 := List.of_mem_filter hr
    revert h2
    cases hb : (r.layerAId == f.layerAId && r.layerBId == f.layerBId &&
      r.direction == f.direction) <;> simp
  have hndF0 : (F0.map (fun r => r.id)).Nodup := by
    refine List.Nodup.sublist ?_ hnd
    exact List.Sublist.map _ (List.filter_sublist _)
  have hsubids : ∀ g, g ∈ F0.map (fun r => r.id) →
      g ∈ s0.annotatedSpacings.map (fun r => r.id) := by
    intro g hg
    exact List.Sublist.mem hg (List.Sublist.map _ (List.filter_sublist _))
  have hnd1 : ((F0 ++ [R1]).map (fun r => r.id)).Nodup := by
    rw [List.map_append]
    refine List.Nodup.append hndF0 (by simp) ?_
    intro x hx hx2
    simp only [List.map_cons, List.map_nil, List.mem_singleton] at hx2
    subst hx2
    exact hg1ids (hsubids _ hx)
  set s1r : DocState :=
    { s0 with annotatedSpacings := F0 ++ [R1], live := L0 ++ [g1] } with hs1rdef
  have hnd1r : (s1r.annotatedSpacings.map (fun r => r.id)).Nodup := hnd1
  have hs2 := addSpacingAnnotOp_state f hv cgid g2 s1r hnd1r
  rw [hs2]
  have hR1match : (R1.layerAId == f.layerAId && R1.layerBId == f.layerBId &&
      R1.direction == f.direction) = true := by
    simp [hR1def]
  have hkeep : (F0 ++ [R1]).filter (fun r => !(r.layerAId == f.layerAId &&
      r.layerBId == f.layerBId && r.direction == f.direction)) = F0 := by
    rw [List.filter_append]
    have h1 : F0.filter (fun r => !(r.layerAId == f.layerAId &&
        r.layerBId == f.layerBId && r.direction == f.direction)) = F0 := by
      rw [List.filter_eq_self]
      intro r hr
      simp [hF0mem r hr]
    have h2 : ([R1]).filter (fun r => !(r.layerAId == f.layerAId &&
        r.layerBId == f.layerBId && r.direction == f.direction)) = [] := by
      simp [hR1match]
    rw [h1, h2, List.append_nil]
  have hF0match : F0.filter (fun r => r.layerAId == f.layerAId &&
      r.layerBId == f.layerBId && r.direction == f.direction) = [] := by
    rw [List.filter_eq_nil_iff]
    intro r hr
    simp [hF0mem r hr]
  have hmatch1 : (F0 ++ [R1]).filter (fun r => r.layerAId == f.layerAId &&
      r.layerBId == f.layerBId && r.direction == f.direction) = [R1] := by
    rw [List.filter_append, hF0match]
    have h2 : ([R1]).filter (fun r => r.layerAId == f.layerAId &&
        r.layerBId == f.layerBId && r.direction == f.direction) = [R1] := by
      simp [hR1match]
    rw [h2, List.nil_append]
  have hloop1 := upsertRemoveLoop_spec
    (fun r : SpacingRecord => r.layerAId == f.layerAId &&
      r.layerBId == f.layerBId && r.direction == f.direction)
    (fun r => r.id) s1r.annotatedSpacings [] s1r.live (by simpa using hnd1r)
    (by simp)
  simp only [List.nil_append] at hloop1
  unfold spacingUpsertOutcome
  refine ⟨?_, ?_, ?_, ?_, ?_⟩
  · show ((s1r.annotatedSpacings.filter (fun r => !(r.layerAId == f.layerAId &&
        r.layerBId == f.layerBId && r.direction == f.direction)) ++
        [R2]).filter (fun r => r.layerAId == f.layerAId &&
        r.layerBId == f.layerBId && r.direction == f.direction)) = [R2]
    rw [show s1r.annotatedSpacings = F0 ++ [R1] from rfl]
    rw [hkeep, List.filter_append, hF0match]
    have hR2match : (R2.layerAId == f.layerAId && R2.layerBId == f.layerBId &&
        R2.direction == f.direction) = true := by
      simp [hR2def]
    simp [hR2match]
  · show g1 ∉ (s1r.live.filter (fun g =>
        !((s1r.annotatedSpacings.filter (fun r => r.layerAId == f.layerAId &&
            r.layerBId == f.layerBId && r.direction == f.direction)).map
              (fun r => r.id)).contains g)
      ++ [g2])
    rw [show s1r.annotatedSpacings = F0 ++ [R1] from rfl, hmatch1]
    intro hmem
    rcases List.mem_append.mp hmem with h | h
    · have := List.of_mem_filter h
      simp [hR1def] at this
    · rw [List.mem_singleton] at h
      exact hg21 h.symm
  · show g2 ∈ (s1r.live.filter (fun g =>
        !((s1r.annotatedSpacings.filter (fun r => r.layerAId == f.layerAId &&
            r.layerBId == f.layerBId && r.direction == f.direction)).map
              (fun r => r.id)).contains g)
      ++ [g2])
    simp
  · rw [hloop1]
    show ((s1r.annotatedSpacings.filter (fun r => !(r.layerAId == f.layerAId &&
        r.layerBId == f.layerBId && r.direction == f.direction))).filter
        (fun r => r.layerAId == f.layerAId && r.layerBId == f.layerBId &&
          r.direction == f.direction)) = []
    rw [show s1r.annotatedSpacings = F0 ++ [R1] from rfl, hkeep, hF0match]
  · rw [hloop1]
    show g1 ∉ s1r.live.filter (fun g =>
        !((s1r.annotatedSpacings.filter (fun r => r.layerAId == f.layerAId &&
            r.layerBId == f.layerBId && r.direction == f.direction)).map
              (fun r => r.id)).contains g)
    rw [show s1r.annotatedSpacings = F0 ++ [R1] from rfl, hmatch1]
    intro hmem
    have := List.of_mem_filter hmem
    simp [hR1def] at this

/-- Claim C3: upserting an annotation twice with the same key (the source
layer id for `addAnnotation`, the `(layerAId, layerBId, direction)` triple
for spacing annotations) and the same inputs leaves exactly one live
annotation record for that key, with the second call's visual group id
replacing the first's; the prior visual group is deleted by the removal
phase, which runs before the new one is created, so the key never has two
live visuals even within a single call. Hypotheses: the host-generated
visual group ids are fresh and the persisted record ids are pairwise
distinct. -/
theorem upsert_single_live_record :
    (∀ (ls : LayerSettingsData) (layerId cgid g1 g2 : Nat) (s0 : DocState),
      jsFalsyStr ls.annotationText = false →
      (s0.annotatedLayers.map (fun r => r.id)).Nodup →
      g1 ∉ s0.annotatedLayers.map (fun r => r.id) →
      g1 ∉ s0.live → g2 ≠ g1 →
      annotUpsertOutcome layerId cgid g1 g2
        ((addAnnotOp (some ls) true layerId cgid g1 s0).2)
        ((addAnnotOp (some ls) true layerId cgid g2
          ((addAnnotOp (some ls) true layerId cgid g1 s0).2)).2)) ∧
    (∀ (f : SpacingFrame) (cgid g1 g2 : Nat) (s0 : DocState),
      jsFalsyInt (retrieveSpacingValue (spacingMeasurement f)) = false →
      (s0.annotatedSpacings.map (fun r => r.id)).Nodup →
      g1 ∉ s0.annotatedSpacings.map (fun r => r.id) →
      g1 ∉ s0.live → g2 ≠ g1 →
      spacingUpsertOutcome f cgid g1 g2
        ((addSpacingAnnotOp f cgid g1 s0).1)
        ((addSpacingAnnotOp f cgid g2
          ((addSpacingAnnotOp f cgid g1 s0).1)).1)) :=
  ⟨annotUpsertTwice, spacingUpsertTwice⟩

/-- Witness for C3 from the empty document state, with fresh group ids 2
then 3, for a layer annotation (key 7) and a spacing annotation keyed by
`(4, 5, gap)`. -/
theorem upsert_single_live_record_witness :
    annotUpsertOutcome 7 1 2 3
      ((addAnnotOp (some ⟨some "Label", none, AnnotType.component⟩) true 7 1 2
        ⟨[], [], [], []⟩).2)
      ((addAnnotOp (some ⟨some "Label", none, AnnotType.component⟩) true 7 1 3
        ((addAnnotOp (some ⟨some "Label", none, AnnotType.component⟩) true 7 1 2
          ⟨[], [], [], []⟩).2)).2) ∧
    spacingUpsertOutcome ⟨50, 0, 30, 10, Orient.vertical, 4, 5, SpacingDir.gap⟩
      1 2 3
      ((addSpacingAnnotOp ⟨50, 0, 30, 10, Orient.vertical, 4, 5, SpacingDir.gap⟩
        1 2 ⟨[], [], [], []⟩).1)
      ((addSpacingAnnotOp ⟨50, 0, 30, 10, Orient.vertical, 4, 5, SpacingDir.gap⟩
        1 3
        ((addSpacingAnnotOp ⟨50, 0, 30, 10, Orient.vertical, 4, 5, SpacingDir.gap⟩
          1 2 ⟨[], [], [], []⟩).1)).1) :=
  ⟨upsert_single_live_record.1 ⟨some "Label", none, AnnotType.component⟩ 7 1 2 3
      ⟨[], [], [], []⟩ rfl (by simp) (by simp) (by simp) (by norm_num),
    upsert_single_live_record.2
      ⟨50, 0, 30, 10, Orient.vertical, 4, 5, SpacingDir.gap⟩ 1 2 3
      ⟨[], [], [], []⟩
      (by norm_num [spacingMeasurement, retrieveSpacingValue, jsFalsyInt])
      (by simp) (by simp) (by simp) (by norm_num)⟩
